import Mathlib

/-!
Verification of the SWARM Sailor GUI device-protocol layer
(source: SwarmSailorGUI.py).

Python strings are modelled as `List Char` (Python is code-point based, as is
`Char`); byte strings as `List Nat`.  The model keeps the source's structure:
`chksum_nmea`, `send_Serial_Command`, `receive`, `getUnreadMessages`,
`SwarmMessage`, `system_status.print_nice`, `QDialogMessage.calculateMessage`,
`QDialogGRIB.calculateMessage` and `QDialogGRIB.change_model` are translated
one to one.  GUI widget state (check boxes, combo boxes, text fields) is
carried as explicit record fields; the serial port is modelled as a list of
sent frames plus a list of pending reply lines.
-/

/-- Characters of a string literal, used to write Python string literals. -/
def chars (s : String) : List Char := s.toList

/-- Decimal digit character for a value below ten. -/
def digitChar (n : Nat) : Char := Char.ofNat (48 + n)

/-- Fuel-driven decimal rendering of a natural number (structural recursion so
that the kernel can evaluate it). -/
def natStrAux : Nat → Nat → List Char
  | 0, _ => []
  | fuel + 1, n => if n < 10 then [digitChar n] else natStrAux fuel (n / 10) ++ [digitChar (n % 10)]

/-- Python `str(n)` for a non-negative integer. -/
def natStr (n : Nat) : List Char := natStrAux (n + 1) n

/-- Python `str(i)` for an integer. -/
def intStr (i : Int) : List Char :=
  if i < 0 then '-' :: natStr i.natAbs else natStr i.natAbs

/-- Uppercase hexadecimal digit for a value below sixteen. -/
def hexDigitUpper (n : Nat) : Char :=
  if n < 10 then Char.ofNat (48 + n) else Char.ofNat (55 + n)

/-- Fuel-driven uppercase hexadecimal rendering, empty on zero. -/
def hexRepAux : Nat → Nat → List Char
  | 0, _ => []
  | fuel + 1, n => if n = 0 then [] else hexRepAux fuel (n / 16) ++ [hexDigitUpper (n % 16)]

/-- Python `'\x7b:02X\x7d'.format(n)`: uppercase hexadecimal, zero-padded on the
left to at least two digits (more digits are produced when `n ≥ 256`). -/
def format02X (n : Nat) : List Char :=
  let d := hexRepAux (n + 1) n
  if d.length < 2 then List.replicate (2 - d.length) '0' ++ d else d

/-- UTF-8 encoding of one Unicode code point. -/
def utf8Bytes (n : Nat) : List Nat :=
  if n < 0x80 then [n]
  else if n < 0x800 then [0xC0 + n / 0x40, 0x80 + n % 0x40]
  else if n < 0x10000 then
    [0xE0 + n / 0x1000, 0x80 + n / 0x40 % 0x40, 0x80 + n % 0x40]
  else [0xF0 + n / 0x40000, 0x80 + n / 0x1000 % 0x40, 0x80 + n / 0x40 % 0x40, 0x80 + n % 0x40]

/-- Python `bytes(s, 'utf-8')`. -/
def utf8Str (s : List Char) : List Nat :=
  s.foldr (fun c acc => utf8Bytes c.toNat ++ acc) []

/-- Ui.chksum_nmea: XOR-fold of `ord(c)` over the characters of the sentence. -/
def chksum_nmea (sentence : List Char) : Nat :=
  sentence.foldl (fun csum c => Nat.xor csum c.toNat) 0

/-- The byte sequence written to the serial port for one command
(Ui.send_Serial_Command, lines 412-417): `$`, the message, `*`, the checksum
formatted `'\x7b:02X\x7d'`, and a newline, each encoded as UTF-8. -/
def sentBytes (message : List Char) : List Nat :=
  utf8Str (chars "$") ++ utf8Str message ++ utf8Str (chars "*")
    ++ utf8Str (format02X (chksum_nmea message)) ++ utf8Str (chars "\n")

/-- The character class of the source regex `'\s|,|\*|='` (a single `\s`
whitespace character, a comma, an asterisk, or an equals sign). -/
def isDelim (c : Char) : Bool :=
  c = ' ' || c = '\t' || c = '\n' || c = '\r' || c = '\x0b' || c = '\x0c' || c = ',' || c = '='
    || c = '*'

/-- Helper for `reSplit`: current group under construction plus finished groups. -/
def reSplitAux : List Char → List Char × List (List Char)
  | [] => ([], [])
  | c :: rest =>
    let p := reSplitAux rest
    if isDelim c then ([], p.1 :: p.2) else (c :: p.1, p.2)

/-- Python `re.split('\s|,|\*|=', s)`: split at every delimiter occurrence,
keeping empty groups (so `reSplit []` is `[[]]`, as in Python). -/
def reSplit (s : List Char) : List (List Char) :=
  (reSplitAux s).1 :: (reSplitAux s).2

/-- Whitespace class of Python `str.strip()` (ASCII fragment). -/
def isPySpace (c : Char) : Bool :=
  c = ' ' || c = '\t' || c = '\n' || c = '\r' || c = '\x0b' || c = '\x0c'

/-- Python `s.strip()`. -/
def stripWs (s : List Char) : List Char :=
  ((s.dropWhile isPySpace).reverse.dropWhile isPySpace).reverse

/-- Python `pat in s` (substring test). -/
def containsSub (s pat : List Char) : Bool :=
  (List.range (s.length + 1)).any fun i => pat.isPrefixOf (s.drop i)

/-- Value of a run of ASCII decimal digits; `none` if empty or non-digit. -/
def digitsVal (l : List Char) : Option Nat :=
  if l ≠ [] && l.all (fun c => '0' ≤ c && c ≤ '9') then
    some (l.foldl (fun a c => a * 10 + (c.toNat - 48)) 0)
  else none

/-- Python `int(tok)` (the fragment exercised by this program: optional
surrounding whitespace, an optional sign, then decimal digits). -/
def parseInt (tok : List Char) : Option Int :=
  match stripWs tok with
  | '-' :: rest => (digitsVal rest).map fun n => -(n : Int)
  | '+' :: rest => (digitsVal rest).map fun n => (n : Int)
  | t => (digitsVal t).map fun n => (n : Int)

/-- Split a digit run at the first decimal point, if any. -/
def splitDot : List Char → Option (List Char × List Char)
  | [] => some ([], [])
  | '.' :: rest => if rest.any (fun c => c = '.') then none else some ([], rest)
  | c :: rest => (splitDot rest).map fun p => (c :: p.1, p.2)

/-- Python `float(tok)` (the decimal fragment exercised by this program:
optional surrounding whitespace, optional sign, digits with at most one
decimal point, at least one digit overall), returned as an exact rational. -/
def parseFloat (tok : List Char) : Option Rat :=
  let core : List Char → Option Rat := fun t =>
    match splitDot t with
    | none => none
    | some (ip, fp) =>
      if (ip ++ fp).isEmpty || !(ip ++ fp).all (fun c => '0' ≤ c && c ≤ '9') then none
      else
        let ipv : Nat := ip.foldl (fun a c => a * 10 + (c.toNat - 48)) 0
        let fpv : Nat := fp.foldl (fun a c => a * 10 + (c.toNat - 48)) 0
        some (mkRat (Int.ofNat (ipv * 10 ^ fp.length + fpv)) (10 ^ fp.length))
  match stripWs tok with
  | '-' :: rest => (core rest).map fun q => -q
  | '+' :: rest => core rest
  | t => core t

example : format02X (chksum_nmea (chars "CS")) = chars "10" := by decide
example : reSplit (chars "$RT A B\n") = [chars "$RT", chars "A", chars "B", []] := by decide
example : parseFloat (chars "9.0") = some 9 := by decide
example : parseInt (chars "-95") = some (-95) := by decide
example : parseInt (chars "B") = none := by decide

/-- Dynamically typed Python value, restricted to the shapes this program
builds: integers, strings, and lists of strings (the only lists that occur). -/
inductive PyVal where
  | int (n : Int)
  | str (s : List Char)
  | list (xs : List (List Char))
deriving DecidableEq

/-- Python `==` across these values: equal only when the types agree. -/
def pyEq : PyVal → PyVal → Bool
  | PyVal.int a, PyVal.int b => a = b
  | PyVal.str a, PyVal.str b => a = b
  | PyVal.list a, PyVal.list b => a = b
  | _, _ => false

/-- Python `!=`. -/
def pyNe (a b : PyVal) : Bool := !pyEq a b

/-- Python `+` on these values: concatenation or addition within one type,
`TypeError` (modelled as `Except.error`) across types, exactly as in CPython. -/
def pyAdd : PyVal → PyVal → Except Unit PyVal
  | PyVal.int a, PyVal.int b => Except.ok (PyVal.int (a + b))
  | PyVal.str a, PyVal.str b => Except.ok (PyVal.str (a ++ b))
  | PyVal.list a, PyVal.list b => Except.ok (PyVal.list (a ++ b))
  | _, _ => Except.error ()

/-- Python `str(v)` (the list arm renders the `repr`-style form; it is never
reached on the modelled paths, where only strings and integers are printed). -/
def pyStr : PyVal → List Char
  | PyVal.int n => intStr n
  | PyVal.str s => s
  | PyVal.list xs =>
    '[' :: (List.intercalate (chars ", ") (xs.map fun s => '\'' :: (s ++ ['\'']))) ++ [']']

/-- Class system_status (lines 83-87): connection banner and link counters.
`tx_waiting`/`rx_waiting` are initialised to int 0 but `receive` later stores a
raw string into `tx_waiting`, so both carry a dynamically typed value. -/
structure system_status where
  comm_status : List Char
  RSSI : Int
  tx_waiting : PyVal
  rx_waiting : PyVal
deriving DecidableEq

/-- Quality-band suffix appended by system_status.print_nice (lines 92-101):
an if/elif chain whose first matching arm wins, `none` when no arm matches. -/
def rssiBand (rssi : Int) : Option (List Char) :=
  if -90 ≤ rssi then some (chars " Bad")
  else if rssi ≤ -93 then some (chars " Marginal")
  else if rssi ≤ -97 then some (chars " OK")
  else if rssi ≤ -100 then some (chars " Good")
  else if rssi ≤ -105 then some (chars " Great")
  else none

/-- system_status.print_nice (lines 89-107). -/
def system_status.print_nice (s : system_status) : List Char :=
  let r := s.comm_status ++ chars "\n" ++ chars "RSSI: " ++ intStr s.RSSI
  let r := r ++ (rssiBand s.RSSI).getD []
  let r := if pyNe s.tx_waiting (PyVal.int 0) then
    r ++ chars "\n" ++ chars "TX Waiting: " ++ pyStr s.tx_waiting else r
  if pyNe s.rx_waiting (PyVal.int 0) then
    r ++ chars "\n" ++ chars "RX Waiting: " ++ pyStr s.rx_waiting else r

/-- Class Geolocation (lines 110-115): last known fix.  Latitude and longitude
are Python floats parsed from decimal text, carried as exact rationals. -/
structure Geolocation where
  latitude : Rat
  longitude : Rat
  altitude : Int
  course : Int
  speed : Int
deriving DecidableEq

/-- SwarmMessage (lines 124-138): five fields split out of one retrieved
mailbox line.  Every field is assigned from `re.split`, hence a string. -/
structure SwarmMessage where
  appid : PyVal
  rssi : PyVal
  snr : PyVal
  fdev : PyVal
  data : PyVal
deriving DecidableEq

/-- SwarmMessage.__init__ (lines 131-138): split the line on the delimiter set
and take the first five fields; in Python a missing index raises IndexError,
modelled as `Except.error`. -/
def SwarmMessage.mk? (buildabear : List Char) : Except Unit SwarmMessage :=
  let array := reSplit buildabear
  match array[0]?, array[1]?, array[2]?, array[3]?, array[4]? with
  | some a0, some a1, some a2, some a3, some a4 =>
    Except.ok ⟨PyVal.str a0, PyVal.str a1, PyVal.str a2, PyVal.str a3, PyVal.str a4⟩
  | _, _, _, _, _ => Except.error ()

/-- Attribute lookup on a SwarmMessage instance: only the five names defined by
the class exist; any other name (such as the `appID` read in
Ui.getUnreadMessages) raises AttributeError. -/
def SwarmMessage.getattr (m : SwarmMessage) (name : List Char) : Except Unit PyVal :=
  if name = chars "appid" then Except.ok m.appid
  else if name = chars "rssi" then Except.ok m.rssi
  else if name = chars "snr" then Except.ok m.snr
  else if name = chars "fdev" then Except.ok m.fdev
  else if name = chars "data" then Except.ok m.data
  else Except.error ()

/-- SwarmMessage.print_nice (lines 140-141). -/
def SwarmMessage.print_nice (m : SwarmMessage) : List Char :=
  chars "New Message " ++ pyStr m.data

/-- Destination of SwarmMessage.write_to_disk: a GRIB file (with its computed
name) or an appended message-log entry. -/
inductive DiskTarget where
  | gribFile (name : List Char) (content : List Char)
  | msgLog (entry : List Char)
deriving DecidableEq

/-- SwarmMessage.write_to_disk (lines 143-152): compare `appid` with the
integer constant APPID_INCOMING_GRIB = 37700 and pick the GRIB file or the
message log.  `current_time` stands for `datetime.now().strftime('%c')`. -/
def SwarmMessage.write_to_disk (m : SwarmMessage) (current_time : List Char) : DiskTarget :=
  if pyEq m.appid (PyVal.int 37700) then
    DiskTarget.gribFile (chars "GRIBs" ++ chars "/" ++ current_time ++ (pyStr m.data).take 6 ++ chars ".grb2")
      m.print_nice
  else
    DiskTarget.msgLog (current_time ++ chars " < " ++ m.print_nice)

/-- Observable state of the Ui object while lines are processed: the two shared
status singletons, the two text displays, the frames already written to the
serial port, the disk writes performed, the reply lines still buffered on the
port, and the timestamp string the current handler formats. -/
structure RecvState where
  status : system_status
  geo : Geolocation
  serialDisplay : List (List Char)
  messagesDisplay : List (List Char)
  sentFrames : List (List Nat)
  diskWrites : List DiskTarget
  pendingReplies : List (List Char)
  now : List Char
deriving DecidableEq

/-- Append one line to the Serial_Monitor_Display. -/
def appendSerial (st : RecvState) (l : List Char) : RecvState :=
  { st with serialDisplay := st.serialDisplay ++ [l] }

/-- Append one line to the Messages_Display. -/
def appendMessages (st : RecvState) (l : List Char) : RecvState :=
  { st with messagesDisplay := st.messagesDisplay ++ [l] }

/-- Record one disk write. -/
def recordDisk (st : RecvState) (d : DiskTarget) : RecvState :=
  { st with diskWrites := st.diskWrites ++ [d] }

/-- Ui.send_Serial_Command (lines 391-425), with the port available (the
unavailable-port path only flips the status banner and is outside these
claims): an empty message prints a warning and sends nothing; otherwise the
frame bytes go out and, when `printthis`, the echo line is displayed. -/
def send_Serial_Command (st : RecvState) (message : List Char) (printthis : Bool) : RecvState :=
  if message = [] then
    appendSerial st (chars "Warning: Nothing To Do! Message Is Empty!")
  else
    let st1 := { st with sentFrames := st.sentFrames ++ [sentBytes message] }
    if printthis then
      appendSerial st1 (st1.now ++ chars " > $" ++ message ++ chars "*"
        ++ format02X (chksum_nmea message))
    else st1

/-- QSerialPort.readLine: pop the next buffered reply, or an empty byte string
when nothing is buffered. -/
def readLine (st : RecvState) : RecvState × List Char :=
  match st.pendingReplies with
  | [] => (st, [])
  | r :: rest => ({ st with pendingReplies := rest }, r)

/-- Outcome of handling one statement block: fall through to the next loop
iteration, `break` out of the read loop, or an uncaught Python exception
(swallowed by the `except: pass` around Ui.receive's read loop). -/
inductive LineResult where
  | cont
  | brk
  | exn
deriving DecidableEq

/-- Body of the `for x in array` loop of Ui.getUnreadMessages (lines 472-485):
display the token, send `MM R=<x>`, read one reply line, decode it as a
SwarmMessage (IndexError on fewer than five fields), then classify by reading
the attribute `appID` — which does not exist on SwarmMessage (the class
defines `appid`), so AttributeError is raised before any classification. -/
def drainStep (st : RecvState) (x : List Char) : RecvState × LineResult :=
  let st1 := appendSerial st (chars "Array Item: " ++ x)
  let st2 := send_Serial_Command st1 (chars "MM R=" ++ x) true
  let p := readLine st2
  match SwarmMessage.mk? p.2 with
  | Except.error _ => (p.1, LineResult.exn)
  | Except.ok m =>
    match m.getattr (chars "appID") with
    | Except.error _ => (p.1, LineResult.exn)
    | Except.ok v =>
      let st4 :=
        if pyEq v (PyVal.str (natStr 37550)) then
          appendMessages p.1 (p.1.now ++ chars " < " ++ m.print_nice)
        else if pyEq v (PyVal.str (natStr 37700)) then
          appendMessages p.1 (p.1.now ++ chars " < " ++ chars "GRIB Recieved")
        else
          appendMessages p.1 (p.1.now ++ chars " < " ++ chars "Uknown Message Receieved")
      (recordDisk st4 (m.write_to_disk st4.now), LineResult.cont)

/-- The `for` loop of Ui.getUnreadMessages: an exception in one iteration
propagates and abandons the remaining tokens. -/
def drainAll : RecvState → List (List Char) → RecvState × LineResult
  | st, [] => (st, LineResult.cont)
  | st, x :: rest =>
    match drainStep st x with
    | (st1, LineResult.cont) => drainAll st1 rest
    | r => r

/-- Ui.getUnreadMessages (lines 468-485).  Its first statement is
`logging.info("Incoming Data: " + list_messages)`; the caller passes a Python
list, so the string concatenation raises TypeError before anything else
happens.  Were the argument a string, the function would re-split it and run
the retrieval loop. -/
def getUnreadMessages (st : RecvState) (list_messages : PyVal) : RecvState × LineResult :=
  match pyAdd (PyVal.str (chars "Incoming Data: ")) list_messages with
  | Except.error _ => (st, LineResult.exn)
  | Except.ok _ =>
    match list_messages with
    | PyVal.str s => drainAll st (reSplit s)
    | _ => (st, LineResult.exn)

/-- The `$MM` substring ignore list (lines 446-447). -/
def substring_ignore_list : List (List Char) :=
  [chars "DBX_NOMORE", chars "CMD_BADPARAMVALUE", chars "MM OK*24", chars "MM 0*10"]

/-- The `$GN` arm (lines 455-461): the five assignments run in order, each one
indexing into the split array and parsing before storing, so a failure leaves
the fields assigned so far in place and raises out of the loop. -/
def gnUpdate (st : RecvState) (array : List (List Char)) : RecvState × LineResult :=
  match array[1]? with
  | none => (st, LineResult.exn)
  | some a1 =>
    match parseFloat a1 with
    | none => (st, LineResult.exn)
    | some lat =>
      let st1 := { st with geo := { st.geo with latitude := lat } }
      match array[2]? with
      | none => (st1, LineResult.exn)
      | some a2 =>
        match parseFloat a2 with
        | none => (st1, LineResult.exn)
        | some lon =>
          let st2 := { st1 with geo := { st1.geo with longitude := lon } }
          match array[3]? with
          | none => (st2, LineResult.exn)
          | some a3 =>
            match parseInt a3 with
            | none => (st2, LineResult.exn)
            | some alt =>
              let st3 := { st2 with geo := { st2.geo with altitude := alt } }
              match array[4]? with
              | none => (st3, LineResult.exn)
              | some a4 =>
                match parseInt a4 with
                | none => (st3, LineResult.exn)
                | some crs =>
                  let st4 := { st3 with geo := { st3.geo with course := crs } }
                  match array[5]? with
                  | none => (st4, LineResult.exn)
                  | some a5 =>
                    match parseInt a5 with
                    | none => (st4, LineResult.exn)
                    | some spd =>
                      ({ st4 with geo := { st4.geo with speed := spd } }, LineResult.cont)

/-- One iteration of the `while self.ser.canReadLine()` loop of Ui.receive
(lines 434-464): dispatch on the first three characters of the line. -/
def processLine (st : RecvState) (text : List Char) : RecvState × LineResult :=
  let tag := text.take 3
  if tag = chars "$RT" then
    match (reSplit text)[2]? with
    | none => (st, LineResult.exn)
    | some f =>
      match parseInt f with
      | none => (st, LineResult.exn)
      | some n => ({ st with status := { st.status with RSSI := n } }, LineResult.cont)
  else if tag = chars "$MT" then
    match (reSplit text)[1]? with
    | none => (st, LineResult.exn)
    | some f => ({ st with status := { st.status with tx_waiting := PyVal.str f } }, LineResult.cont)
  else if tag = chars "$MM" then
    if substring_ignore_list.any (fun pat => containsSub text pat) then (st, LineResult.brk)
    else
      let st1 := appendSerial st (st.now ++ chars " < " ++ stripWs text)
      getUnreadMessages st1 (PyVal.list ((reSplit text).drop 1))
  else if tag = chars "$GN" then
    gnUpdate st (reSplit text)
  else
    (appendSerial st (st.now ++ chars " < " ++ stripWs text), LineResult.cont)

/-- Ui.receive (lines 431-466) over the list of buffered lines: process them
in order; a `break` or an exception (swallowed by `except: pass`) ends the
invocation, abandoning the remaining buffered lines. -/
def receive : RecvState → List (List Char) → RecvState
  | st, [] => st
  | st, text :: rest =>
    match processLine st text with
    | (st1, LineResult.cont) => receive st1 rest
    | (st1, _) => st1

/-- Fresh Ui state: the Python class-attribute initial values of
system_status and Geolocation, empty displays and buffers, and an arbitrary
fixed timestamp. -/
def initState : RecvState :=
  { status := { comm_status := chars "Disconnected", RSSI := 0,
                tx_waiting := PyVal.int 0, rx_waiting := PyVal.int 0 }
    geo := { latitude := 0, longitude := 0, altitude := 0, course := 0, speed := 0 }
    serialDisplay := [], messagesDisplay := [], sentFrames := [], diskWrites := []
    pendingReplies := [], now := chars "12:00:00" }

/-- QDialogMessage.calculateMessage (lines 608-616): the dialog's return
message, built from the three form fields. -/
def QDialogMessage.calculateMessage (toText subject body : List Char) : List Char :=
  chars "T:" ++ toText ++ chars "S:" ++ subject ++ chars "M" ++ body

/-- The character count shown in label_Size_Calc (line 615). -/
def reportedChars (toText subject body : List Char) : Nat :=
  (QDialogMessage.calculateMessage toText subject body).length

/-- The packet count shown in label_Size_Calc (line 616):
`math.ceil(len(return_message) / 192)`. -/
def reportedPackets (toText subject body : List Char) : Nat :=
  (Int.ceil ((reportedChars toText subject body : Rat) / 192)).toNat

/-- Ui.Button_Send_Message_click (line 341): the full outgoing payload,
`str(random.randint(10, 99)) + str(1) + str(1) + dialog.returnString()`. -/
def message_outgoing (seq : Nat) (ret : List Char) : List Char :=
  natStr seq ++ natStr 1 ++ natStr 1 ++ ret

/-- The eight GRIB field check boxes, in the source's declaration order. -/
structure GribChecks where
  current : Bool
  airT : Bool
  cape : Bool
  cloud : Bool
  pressure : Bool
  wave : Bool
  wind : Bool
  wing : Bool
deriving DecidableEq

/-- Enabled/disabled state of the eight check boxes. -/
structure GribEnabled where
  current : Bool
  airT : Bool
  cape : Bool
  cloud : Bool
  pressure : Bool
  wave : Bool
  wind : Bool
  wing : Bool
deriving DecidableEq

/-- Widget state of QDialogGRIB that change_model manipulates: the check
boxes, their enabled flags, and the items of comboBox_Range. -/
structure GribDialog where
  boxes : GribChecks
  enabled : GribEnabled
  rangeItems : List (List Char)
deriving DecidableEq

/-- Operator interaction between model changes: overwrite the check boxes. -/
def setBoxes (d : GribDialog) (c : GribChecks) : GribDialog :=
  { d with boxes := c }

/-- QDialogGRIB.change_model (lines 699-742): uncheck and enable every box,
clear the range combo, then apply the per-model defaults: GFS offers ranges
1-16, disables the current box and checks wind and pressure; RTOFS offers
ranges 1-6, checks current and disables every box; every other model (Local,
ECMWG, SPIRE, or anything else) returns after the reset. -/
def change_model (new_model : List Char) (_d : GribDialog) : GribDialog :=
  let reset : GribDialog :=
    { boxes := ⟨false, false, false, false, false, false, false, false⟩
      enabled := ⟨true, true, true, true, true, true, true, true⟩
      rangeItems := [] }
  if new_model = chars "GFS" then
    { reset with
        rangeItems := (List.range' 1 16).map natStr
        enabled := { reset.enabled with current := false }
        boxes := { reset.boxes with wind := true, pressure := true } }
  else if new_model = chars "RTOFS" then
    { reset with
        rangeItems := (List.range' 1 6).map natStr
        boxes := { reset.boxes with current := true }
        enabled := ⟨false, false, false, false, false, false, false, false⟩ }
  else reset

/-- Widget values read by QDialogGRIB.calculateMessage. -/
structure GribForm where
  model : List Char
  res : List Char
  interval : List Char
  rangeSel : List Char
  latMax : Int
  latMin : Int
  lonMin : Int
  lonMax : Int
  boxes : GribChecks
deriving DecidableEq

/-- The comma-terminated data-type tokens appended by lines 666-681, one `if`
per check box in source order; the wave box contributes the triple
`HTSGW,WVPER,WVDIR,`. -/
def gribFieldsText (c : GribChecks) : List Char :=
  (if c.current then chars "CUR," else [])
    ++ (if c.airT then chars "AIRTMP," else [])
    ++ (if c.cape then chars "CAPE," else [])
    ++ (if c.cloud then chars "TCDC," else [])
    ++ (if c.pressure then chars "PRESS," else [])
    ++ (if c.wave then chars "HTSGW,WVPER,WVDIR," else [])
    ++ (if c.wind then chars "WIND," else [])
    ++ (if c.wing then chars "GUST," else [])

/-- QDialogGRIB.calculateMessage (lines 650-684): serialize the request and
drop the final character (`return_message[:len(return_message)-1]`), the text
placed into lineEdit_Request and returned by returnString. -/
def QDialogGRIB.calculateMessage (f : GribForm) : List Char :=
  let rm := f.model ++ chars ":"
    ++ intStr f.latMax ++ chars "," ++ intStr f.latMin ++ chars ","
    ++ intStr f.lonMin ++ chars "," ++ intStr f.lonMax ++ chars "|"
    ++ f.res ++ chars "|"
    ++ f.interval ++ chars "," ++ f.rangeSel ++ chars "|"
    ++ gribFieldsText f.boxes
  rm.dropLast

/-- Modelled from the spec: the wire layout the claim describes for one
outbound command — `$`, the command text, `*`, the XOR-fold of the byte
values of every character of the command rendered as two uppercase
hexadecimal digits, then a newline. -/
def claimedSentBytes (message : List Char) : List Nat :=
  [36] ++ utf8Str message ++ [42]
    ++ utf8Str (format02X ((utf8Str message).foldl Nat.xor 0)) ++ [10]

/-- Modelled from the spec: the RSSI quality bands in the claimed order, each
an (inclusive) threshold test paired with the suffix it displays. -/
def bandTable : List ((Int → Bool) × List Char) :=
  [ (fun r => decide (-90 ≤ r), chars " Bad"),
    (fun r => decide (r ≤ -93), chars " Marginal"),
    (fun r => decide (r ≤ -97), chars " OK"),
    (fun r => decide (r ≤ -100), chars " Good"),
    (fun r => decide (r ≤ -105), chars " Great") ]

/-- Modelled from the spec: the first band of `bandTable` whose test accepts
the RSSI value. -/
def firstBand (r : Int) : Option (List Char) :=
  (bandTable.find? fun p => p.1 r).map Prod.snd

/-- Modelled from the spec: the fixed field vocabulary as a token list gated
by the check boxes, the wave triple contributing its three tokens together.
Note WIND follows PRESS in the emission order of the source. -/
def gribFieldVocab (c : GribChecks) : List (List Char) :=
  (if c.current then [chars "CUR"] else [])
    ++ (if c.airT then [chars "AIRTMP"] else [])
    ++ (if c.cape then [chars "CAPE"] else [])
    ++ (if c.cloud then [chars "TCDC"] else [])
    ++ (if c.pressure then [chars "PRESS"] else [])
    ++ (if c.wave then [chars "HTSGW", chars "WVPER", chars "WVDIR"] else [])
    ++ (if c.wind then [chars "WIND"] else [])
    ++ (if c.wing then [chars "GUST"] else [])

/-- C9: the quality band is chosen by the source's if/elif chain in exactly
the claimed fixed order with the first match winning: at least -90 gives
" Bad", else at most -93 " Marginal", else at most -97 " OK", else at most
-100 " Good", else at most -105 " Great"; in particular -94 is " Marginal"
and -91 and -92 match no band. -/
theorem rssi_band_first_match :
    (∀ r : Int, rssiBand r = firstBand r)
      ∧ rssiBand (-94) = some (chars " Marginal")
      ∧ rssiBand (-91) = none ∧ rssiBand (-92) = none := by
  refine ⟨fun r => ?_, by decide, by decide, by decide⟩
  simp only [rssiBand, firstBand, bandTable, List.find?]
  split_ifs with h1 h2 h3 h4 h5
  · rw [decide_eq_true h1]; rfl
  · rw [decide_eq_false h1, decide_eq_true h2]; rfl
  · rw [decide_eq_false h1, decide_eq_false h2, decide_eq_true h3]; rfl
  · rw [decide_eq_false h1, decide_eq_false h2, decide_eq_false h3, decide_eq_true h4]; rfl
  · rw [decide_eq_false h1, decide_eq_false h2, decide_eq_false h3, decide_eq_false h4,
      decide_eq_true h5]; rfl
  · rw [decide_eq_false h1, decide_eq_false h2, decide_eq_false h3, decide_eq_false h4,
      decide_eq_false h5]; rfl

/-- C7: switching the model to RTOFS — whatever the prior dialog state, and in
particular after selecting GFS and toggling any combination of field check
boxes — leaves exactly the CUR box checked and offers the forecast ranges
1 through 6; and more generally change_model ignores the prior state
entirely, so every model change resets the field selections to that model's
default state. -/
theorem change_model_reset_rtofs :
    (∀ (d : GribDialog) (toggled : GribChecks),
        (change_model (chars "RTOFS") (setBoxes (change_model (chars "GFS") d) toggled)).boxes
            = ⟨true, false, false, false, false, false, false, false⟩
          ∧ (change_model (chars "RTOFS") (setBoxes (change_model (chars "GFS") d) toggled)).rangeItems
            = [chars "1", chars "2", chars "3", chars "4", chars "5", chars "6"])
      ∧ (∀ (m : List Char) (d d' : GribDialog), change_model m d = change_model m d') :=
  ⟨fun _ _ => ⟨rfl, rfl⟩, fun _ _ _ => rfl⟩

/-- C4: the mailbox drain can never work as described.  Ui.receive hands
getUnreadMessages a Python list (`array[1:]`), and its first statement,
`logging.info("Incoming Data: " + list_messages)`, concatenates a str with a
list, raising TypeError: for every state and every identifier list the drain
aborts immediately — no identifier is retrieved, classified or emitted, and
no per-identifier failure is reported. -/
theorem getUnreadMessages_always_aborts :
    ∀ (st : RecvState) (ids : List (List Char)),
      getUnreadMessages st (PyVal.list ids) = (st, LineResult.exn) :=
  fun _ _ => rfl

/-- C10: every SwarmMessage constructor run keeps the parsed appID as a
string, so write_to_disk's comparison with the integer constant
APPID_INCOMING_GRIB = 37700 is false for every possible input and every
retrieved message — weather-grid payloads included — is appended to the text
message log rather than written as a GRIB file. -/
theorem write_to_disk_never_grib :
    ∀ (line : List Char) (m : SwarmMessage) (t : List Char),
      SwarmMessage.mk? line = Except.ok m →
      (∃ s, m.appid = PyVal.str s)
        ∧ m.write_to_disk t = DiskTarget.msgLog (t ++ chars " < " ++ m.print_nice) := by
  intro line m t h
  simp only [SwarmMessage.mk?] at h
  split at h
  · cases h
    exact ⟨⟨_, rfl⟩, rfl⟩
  · cases h

/-- Witness for write_to_disk_never_grib at a retrieved GRIB payload line. -/
theorem write_to_disk_never_grib_witness :
    (∃ s, (SwarmMessage.mk (PyVal.str (chars "37700")) (PyVal.str (chars "-95"))
        (PyVal.str (chars "10")) (PyVal.str (chars "0")) (PyVal.str (chars "payload"))).appid
        = PyVal.str s)
      ∧ (SwarmMessage.mk (PyVal.str (chars "37700")) (PyVal.str (chars "-95"))
        (PyVal.str (chars "10")) (PyVal.str (chars "0"))
        (PyVal.str (chars "payload"))).write_to_disk (chars "Mon Aug 15")
        = DiskTarget.msgLog (chars "Mon Aug 15" ++ chars " < "
            ++ (SwarmMessage.mk (PyVal.str (chars "37700")) (PyVal.str (chars "-95"))
              (PyVal.str (chars "10")) (PyVal.str (chars "0"))
              (PyVal.str (chars "payload"))).print_nice) :=
  write_to_disk_never_grib (chars "37700 -95 10 0 payload") _ (chars "Mon Aug 15") (by rfl)

/-- Counterexample to C6: with model GFS, bounding box (57,44,133,113),
resolution "2.0,2.0", interval "0,6" and range "12..48", and exactly the WIND
and PRESS boxes selected, the serialized request ends in `PRESS,WIND` — the
source emits the pressure token before the wind token — not in the claimed
`WIND,PRESS`. -/
theorem grib_serialization_counterexample :
    QDialogGRIB.calculateMessage
        ⟨chars "GFS", chars "2.0,2.0", chars "0,6", chars "12..48", 57, 44, 133, 113,
          ⟨false, false, false, false, true, false, true, false⟩⟩
        = chars "GFS:57,44,133,113|2.0,2.0|0,6,12..48|PRESS,WIND"
      ∧ QDialogGRIB.calculateMessage
        ⟨chars "GFS", chars "2.0,2.0", chars "0,6", chars "12..48", 57, 44, 133, 113,
          ⟨false, false, false, false, true, false, true, false⟩⟩
        ≠ chars "GFS:57,44,133,113|2.0,2.0|0,6,12..48|WIND,PRESS" := by
  exact ⟨by decide, by decide⟩

/-- C6 as amended: the request of the claim serializes to
`GFS:57,44,133,113|2.0,2.0|0,6,12..48|PRESS,WIND` (the source's field order
puts PRESS before WIND); generally, for any selection with at least one box
checked, the field segment is the comma-join of the fixed vocabulary in
source order CUR, AIRTMP, CAPE, TCDC, PRESS, (HTSGW,WVPER,WVDIR — the wave
triple always together), WIND, GUST, with the trailing separator trimmed. -/
theorem grib_serialization_amended :
    ∀ c : GribChecks,
      (c.current || c.airT || c.cape || c.cloud || c.pressure || c.wave || c.wind || c.wing)
          = true →
      QDialogGRIB.calculateMessage
          ⟨chars "GFS", chars "2.0,2.0", chars "0,6", chars "12..48", 57, 44, 133, 113, c⟩
        = chars "GFS:57,44,133,113|2.0,2.0|0,6,12..48|"
            ++ List.intercalate (chars ",") (gribFieldVocab c) := by
  rintro ⟨b1, b2, b3, b4, b5, b6, b7, b8⟩ h
  revert h
  cases b1 <;> cases b2 <;> cases b3 <;> cases b4 <;> cases b5 <;> cases b6 <;> cases b7 <;>
    cases b8 <;> decide

/-- Witness for grib_serialization_amended with every box checked. -/
theorem grib_serialization_amended_witness :
    QDialogGRIB.calculateMessage
        ⟨chars "GFS", chars "2.0,2.0", chars "0,6", chars "12..48", 57, 44, 133, 113,
          ⟨true, true, true, true, true, true, true, true⟩⟩
      = chars "GFS:57,44,133,113|2.0,2.0|0,6,12..48|"
          ++ List.intercalate (chars ",")
            (gribFieldVocab ⟨true, true, true, true, true, true, true, true⟩) :=
  grib_serialization_amended ⟨true, true, true, true, true, true, true, true⟩ (by decide)

/-- Python `str(n)` has exactly two characters for a two-digit number. -/
theorem natStr_two_digit : ∀ n : Nat, n < 100 → 10 ≤ n → (natStr n).length = 2 := by decide

/-- The exact rational ceiling of `l / 192` as computed by `math.ceil` agrees
with the rounded-up natural division. -/
theorem ceilRatDiv (l : Nat) : (Int.ceil ((l : Rat) / 192)).toNat = (l + 191) / 192 := by
  have hm1 : l ≤ 192 * ((l + 191) / 192) := by omega
  have hm2 : 192 * ((l + 191) / 192) < l + 192 := by omega
  have h : Int.ceil ((l : Rat) / 192) = (((l + 191) / 192 : Nat) : Int) := by
    rw [Int.ceil_eq_iff]
    have c1 : ((192 * ((l + 191) / 192) : Nat) : Rat) < ((l + 192 : Nat) : Rat) := by
      exact_mod_cast hm2
    have c2 : ((l : Nat) : Rat) ≤ ((192 * ((l + 191) / 192) : Nat) : Rat) := by
      exact_mod_cast hm1
    push_cast at c1 c2
    constructor
    · simp only [Int.cast_natCast]
      rw [lt_div_iff₀ (show (0 : Rat) < 192 by norm_num)]
      linarith
    · simp only [Int.cast_natCast]
      rw [div_le_iff₀ (show (0 : Rat) < 192 by norm_num)]
      linarith
  rw [h, Int.toNat_natCast]

/-- Counterexample to C8: for to "x", subject "y", body "z" the dialog reports
8 characters — the length of "T:xS:yMz" alone — while the full outgoing
string (sequence number 42 prepended with the two routing/type bytes) has
length 12, so the reported count is not the length of the full string. -/
theorem message_size_counterexample :
    reportedChars (chars "x") (chars "y") (chars "z") = 8
      ∧ (message_outgoing 42
          (QDialogMessage.calculateMessage (chars "x") (chars "y") (chars "z"))).length = 12
      ∧ reportedChars (chars "x") (chars "y") (chars "z")
          ≠ (message_outgoing 42
            (QDialogMessage.calculateMessage (chars "x") (chars "y") (chars "z"))).length := by
  exact ⟨by decide, by decide, by decide⟩

/-- C8 as amended: the reported character count is the length of
`T:<to>S:<subject>M<body>` alone; the full outgoing string is that length
plus the four prefix characters (two-digit sequence number and the two
routing/type bytes) added at send time, and the reported packet count is the
ceiling of the reported (prefix-free) length divided by 192. -/
theorem message_size_amended :
    ∀ (toText subject body : List Char) (seq : Nat), 10 ≤ seq → seq ≤ 99 →
      (natStr seq).length = 2
        ∧ (message_outgoing seq (QDialogMessage.calculateMessage toText subject body)).length
            = reportedChars toText subject body + 4
        ∧ reportedPackets toText subject body
            = (reportedChars toText subject body + 191) / 192 := by
  intro toText subject body seq h1 h2
  have hlen : (natStr seq).length = 2 := natStr_two_digit seq (by omega) h1
  have h11 : (natStr 1).length = 1 := by decide
  refine ⟨hlen, ?_, ?_⟩
  · simp only [message_outgoing, reportedChars, List.length_append, hlen, h11]
    omega
  · simp only [reportedPackets]
    exact ceilRatDiv _

/-- Witness for message_size_amended at to "x", subject "y", body "z",
sequence number 57. -/
theorem message_size_amended_witness :
    (natStr 57).length = 2
      ∧ (message_outgoing 57
          (QDialogMessage.calculateMessage (chars "x") (chars "y") (chars "z"))).length
          = reportedChars (chars "x") (chars "y") (chars "z") + 4
      ∧ reportedPackets (chars "x") (chars "y") (chars "z")
          = (reportedChars (chars "x") (chars "y") (chars "z") + 191) / 192 :=
  message_size_amended (chars "x") (chars "y") (chars "z") 57 (by decide) (by decide)

/-- ASCII strings UTF-8-encode to their own code points. -/
theorem utf8Str_ascii : ∀ (msg : List Char), (∀ c ∈ msg, c.toNat < 128) →
    utf8Str msg = msg.map Char.toNat := by
  intro msg h
  induction msg with
  | nil => rfl
  | cons c rest ih =>
    have hc : c.toNat < 128 := h c (List.mem_cons_self c rest)
    have hr := ih fun x hx => h x (List.mem_cons_of_mem c hx)
    simp only [utf8Str, List.foldr_cons, List.map_cons] at *
    rw [hr, utf8Bytes, if_pos hc]
    rfl

/-- XOR-folding values below 128 stays below 128. -/
theorem foldl_xor_lt (msg : List Char) : ∀ a : Nat, a < 128 → (∀ c ∈ msg, c.toNat < 128) →
    msg.foldl (fun csum c => Nat.xor csum c.toNat) a < 128 := by
  induction msg with
  | nil => intro a ha _; simpa using ha
  | cons c rest ih =>
    intro a ha h
    have hc : c.toNat < 128 := h c (List.mem_cons_self c rest)
    have hx : Nat.xor a c.toNat < 128 := by
      have := Nat.xor_lt_two_pow (n := 7) (by simpa using ha) (by simpa using hc)
      simpa using this
    simpa using ih (Nat.xor a c.toNat) hx fun x hx => h x (List.mem_cons_of_mem c hx)

/-- The NMEA checksum of an ASCII command is below 128. -/
theorem chksum_lt (msg : List Char) (h : ∀ c ∈ msg, c.toNat < 128) : chksum_nmea msg < 128 :=
  foldl_xor_lt msg 0 (by norm_num) h

/-- For an ASCII command the code-point XOR computed by chksum_nmea equals the
XOR-fold of the transmitted UTF-8 bytes. -/
theorem chksum_eq_byte_fold (msg : List Char) (h : ∀ c ∈ msg, c.toNat < 128) :
    (utf8Str msg).foldl Nat.xor 0 = chksum_nmea msg := by
  rw [utf8Str_ascii msg h, List.foldl_map]
  rfl

set_option maxRecDepth 2048 in
/-- The `02X` format yields exactly two digits below 256. -/
theorem format02X_len2 : ∀ n : Nat, n < 256 → (format02X n).length = 2 := by decide

/-- Counterexample to C1: for the one-character command U+0100 the checksum is
the code point 256, whose `02X` rendering has three digits, and it differs
from the XOR-fold (0x44) of the two UTF-8 bytes 0xC4 0x80 actually
transmitted for the command text — so the frame is neither the claimed byte
sequence nor rendered as exactly two hexadecimal digits. -/
theorem sendFrame_unicode_counterexample :
    sentBytes [Char.ofNat 256] = [36, 196, 128, 42, 49, 48, 48, 10]
      ∧ sentBytes [Char.ofNat 256] ≠ claimedSentBytes [Char.ofNat 256]
      ∧ (format02X (chksum_nmea [Char.ofNat 256])).length = 3 := by
  exact ⟨by decide, by decide, by decide⟩

/-- C1 as amended: for every non-empty command whose characters are ASCII (as
every command this program builds is), the bytes sent are exactly `$`, the
command text, `*`, the XOR-fold of the byte values of every character
rendered as exactly two uppercase hexadecimal digits, and a newline — and
send_Serial_Command appends exactly that frame to the transport; the
checksum of "CS" renders as "10".  (For non-ASCII commands the code XORs
code points, not bytes, and the rendering can exceed two digits.) -/
theorem sendFrame_ascii_wire_format :
    (∀ (message : List Char) (st : RecvState) (printthis : Bool),
        message ≠ [] → (∀ c ∈ message, c.toNat < 128) →
        sentBytes message = claimedSentBytes message
          ∧ (format02X (chksum_nmea message)).length = 2
          ∧ (send_Serial_Command st message printthis).sentFrames
              = st.sentFrames ++ [sentBytes message])
      ∧ format02X (chksum_nmea (chars "CS")) = chars "10" := by
  refine ⟨fun message st printthis hne h => ⟨?_, ?_, ?_⟩, by decide⟩
  · have d1 : utf8Str (chars "$") = [36] := by decide
    have d2 : utf8Str (chars "*") = [42] := by decide
    have d3 : utf8Str (chars "\n") = [10] := by decide
    simp only [sentBytes, claimedSentBytes, d1, d2, d3, chksum_eq_byte_fold message h]
  · exact format02X_len2 _ (lt_trans (chksum_lt message h) (by norm_num))
  · cases printthis <;>
      simp [send_Serial_Command, hne, appendSerial]

/-- Witness for sendFrame_ascii_wire_format at the command "CS" from the
fresh state. -/
theorem sendFrame_ascii_wire_format_witness :
    sentBytes (chars "CS") = claimedSentBytes (chars "CS")
      ∧ (format02X (chksum_nmea (chars "CS"))).length = 2
      ∧ (send_Serial_Command initState (chars "CS") true).sentFrames
          = initState.sentFrames ++ [sentBytes (chars "CS")] :=
  sendFrame_ascii_wire_format.1 (chars "CS") initState true (by decide) (by decide)

/-- Splitting a delimiter-free prefix accumulates it onto the first group. -/
theorem reSplitAux_append (xs ys : List Char) (h : ∀ c ∈ xs, isDelim c = false) :
    reSplitAux (xs ++ ys) = (xs ++ (reSplitAux ys).1, (reSplitAux ys).2) := by
  induction xs with
  | nil => simp
  | cons c rest ih =>
    have hc : isDelim c = false := h c (List.mem_cons_self c rest)
    have hr := ih fun x hx => h x (List.mem_cons_of_mem c hx)
    simp only [List.cons_append, reSplitAux, hr, hc]
    simp [hr]

/-- One field step of the regex split: a delimiter-free group followed by a
delimiter contributes one group. -/
theorem reSplit_field (xs : List Char) (d : Char) (ys : List Char)
    (h : ∀ c ∈ xs, isDelim c = false) (hd : isDelim d = true) :
    reSplit (xs ++ d :: ys) = xs :: reSplit ys := by
  unfold reSplit
  rw [reSplitAux_append xs (d :: ys) h]
  simp only [reSplitAux, hd]
  simp

/-- send_Serial_Command only touches the display and the sent frames. -/
theorem send_Serial_Command_status (st : RecvState) (m : List Char) (p : Bool) :
    (send_Serial_Command st m p).status = st.status := by
  unfold send_Serial_Command appendSerial
  split
  · rfl
  · split <;> rfl

/-- One drain iteration never touches the shared system_status. -/
theorem drainStep_status (st : RecvState) (x : List Char) :
    ((drainStep st x).1).status = st.status := by
  unfold drainStep readLine appendSerial appendMessages recordDisk
  dsimp only
  repeat' split
  all_goals simp_all [send_Serial_Command_status]

/-- The drain loop never touches the shared system_status. -/
theorem drainAll_status : ∀ (ids : List (List Char)) (st : RecvState),
    ((drainAll st ids).1).status = st.status := by
  intro ids
  induction ids with
  | nil => intro st; rfl
  | cons x rest ih =>
    intro st
    have hq : ((drainStep st x).1).status = st.status := drainStep_status st x
    rcases h : drainStep st x with ⟨st1, r⟩
    rw [h] at hq
    simp only [drainAll, h]
    cases r
    · simpa [ih st1] using hq
    · simpa using hq
    · simpa using hq

/-- getUnreadMessages never touches the shared system_status. -/
theorem getUnreadMessages_status (st : RecvState) (v : PyVal) :
    ((getUnreadMessages st v).1).status = st.status := by
  unfold getUnreadMessages
  repeat' split
  all_goals simp_all [drainAll_status]

/-- The `$GN` arm only touches the geolocation record. -/
theorem gnUpdate_status (st : RecvState) (a : List (List Char)) :
    ((gnUpdate st a).1).status = st.status := by
  unfold gnUpdate
  repeat' split
  all_goals rfl

/-- No arm of the line dispatcher ever writes rx_waiting. -/
theorem processLine_rx (st : RecvState) (t : List Char) :
    ((processLine st t).1).status.rx_waiting = st.status.rx_waiting := by
  unfold processLine
  dsimp only
  repeat' split
  all_goals simp_all [getUnreadMessages_status, gnUpdate_status, appendSerial]

/-- The read loop never writes rx_waiting, whatever lines arrive. -/
theorem receive_rx : ∀ (lines : List (List Char)) (st : RecvState),
    (receive st lines).status.rx_waiting = st.status.rx_waiting := by
  intro lines
  induction lines with
  | nil => intro st; rfl
  | cons t rest ih =>
    intro st
    have hq := processLine_rx st t
    rcases h : processLine st t with ⟨st1, r⟩
    rw [h] at hq
    simp only [receive, h]
    cases r
    · simpa [ih st1] using hq
    · simpa using hq
    · simpa using hq

/-- Counterexample to C2: with the two lines `$RT A B` and `hello` buffered,
the first line's RSSI field fails numeric parsing, the exception aborts the
whole invocation, and the final state is unchanged — the malformed line was
not forwarded to the display and the remaining buffered line `hello` was
never processed. -/
theorem receive_parse_failure_counterexample :
    receive initState [chars "$RT A B\n", chars "hello\n"] = initState
      ∧ (receive initState [chars "$RT A B\n", chars "hello\n"]).serialDisplay = [] := by
  exact ⟨by decide, by decide⟩

/-- C2 as amended: a line with an unrecognized three-character tag is indeed
forwarded to the display as a raw pass-through and processing continues with
the remaining buffered lines; but a recognized line whose field fails numeric
parsing (here `$RT`) raises, the exception is silently swallowed, the line is
not displayed, and the remaining buffered lines are abandoned for this
invocation. -/
theorem receive_raw_and_abort_amended :
    (∀ (st : RecvState) (text : List Char) (rest : List (List Char)),
        text.take 3 ≠ chars "$RT" → text.take 3 ≠ chars "$MT" →
        text.take 3 ≠ chars "$MM" → text.take 3 ≠ chars "$GN" →
        receive st (text :: rest)
          = receive (appendSerial st (st.now ++ chars " < " ++ stripWs text)) rest)
      ∧ (∀ (st : RecvState) (text : List Char) (rest : List (List Char)) (f : List Char),
        text.take 3 = chars "$RT" → (reSplit text)[2]? = some f → parseInt f = none →
        receive st (text :: rest) = st) := by
  constructor
  · intro st text rest h1 h2 h3 h4
    simp only [receive, processLine]
    rw [if_neg h1, if_neg h2, if_neg h3, if_neg h4]
  · intro st text rest f h1 h2 h3
    simp only [receive, processLine]
    rw [if_pos h1, h2]
    dsimp only
    rw [h3]

/-- Witness for receive_raw_and_abort_amended: a raw `hello` line is displayed
and processing continues; a `$RT` line with non-numeric RSSI aborts. -/
theorem receive_raw_and_abort_amended_witness :
    receive initState [chars "hello\n"]
        = receive (appendSerial initState
            (initState.now ++ chars " < " ++ stripWs (chars "hello\n"))) []
      ∧ receive initState [chars "$RT A B\n", chars "bye\n"] = initState :=
  ⟨receive_raw_and_abort_amended.1 initState (chars "hello\n") []
      (by decide) (by decide) (by decide) (by decide),
    receive_raw_and_abort_amended.2 initState (chars "$RT A B\n") [chars "bye\n"]
      (chars "B") (by decide) (by decide) (by decide)⟩

/-- Counterexample to C5: processing `$MT 5 X` stores the raw string "5" —
not the integer 5 — into tx_waiting, and processing the unread-count line
`$MM 3 59` leaves rx_waiting at its initial integer 0 instead of overwriting
it with the second field 3. -/
theorem telemetry_counts_counterexample :
    (receive initState [chars "$MT 5 X\n"]).status.tx_waiting = PyVal.str (chars "5")
      ∧ PyVal.str (chars "5") ≠ PyVal.int 5
      ∧ (receive initState [chars "$MM 3 59\n"]).status.rx_waiting = PyVal.int 0
      ∧ PyVal.int 0 ≠ PyVal.int 3 := by
  exact ⟨by decide, by decide, by decide, by decide⟩

/-- C5 as amended: a `$MT` line overwrites tx_waiting with its second field
kept as an unparsed string, and no line ever writes rx_waiting — the `$MM`
arm either ignores the line or displays it and starts the (always failing)
mailbox drain. -/
theorem telemetry_counts_amended :
    (∀ (st : RecvState) (lines : List (List Char)),
        (receive st lines).status.rx_waiting = st.status.rx_waiting)
      ∧ (∀ (st : RecvState) (text : List Char) (rest : List (List Char)) (f : List Char),
          text.take 3 = chars "$MT" → (reSplit text)[1]? = some f →
          receive st (text :: rest)
            = receive { st with status := { st.status with tx_waiting := PyVal.str f } } rest) := by
  constructor
  · intro st lines
    exact receive_rx lines st
  · intro st text rest f h1 h2
    have hne : text.take 3 ≠ chars "$RT" := by rw [h1]; decide
    simp only [receive, processLine]
    rw [if_neg hne, if_pos h1, h2]

/-- Witness for telemetry_counts_amended at the `$MM 3 59` and `$MT 5 X`
lines from the fresh state. -/
theorem telemetry_counts_amended_witness :
    (receive initState [chars "$MM 3 59\n"]).status.rx_waiting
        = initState.status.rx_waiting
      ∧ receive initState [chars "$MT 5 X\n"]
          = receive { initState with
              status := { initState.status with tx_waiting := PyVal.str (chars "5") } } [] :=
  ⟨telemetry_counts_amended.1 initState [chars "$MM 3 59\n"],
    telemetry_counts_amended.2 initState (chars "$MT 5 X\n") [] (chars "5")
      (by decide) (by decide)⟩

/-- Counterexample to C3: the `$GN 9.0` line carries a single trailing field;
processing it sets the shared latitude to 9 — a partial fix is applied —
and no Raw line is forwarded to the display. -/
theorem gn_partial_update_counterexample :
    (receive initState [chars "$GN 9.0\n"]).geo.latitude = 9
      ∧ initState.geo.latitude = 0
      ∧ (receive initState [chars "$GN 9.0\n"]).serialDisplay = [] := by
  exact ⟨by decide, by decide, by decide⟩

/-- C3 as amended: a `$GN` line with fewer than five trailing fields raises an
exception that the read loop's catch-all silently swallows (so the process
never crashes), yields no Raw display line, abandons the remaining buffered
lines, and applies the fields parsed before the failure: for a line carrying
one valid latitude field, the shared GeoFix's latitude is overwritten while
every other field — and everything else in the state — is unchanged. -/
theorem gn_short_line_partial_update :
    ∀ (st : RecvState) (rest : List (List Char)) (t : List Char) (q : Rat),
      (∀ c ∈ t, isDelim c = false) → parseFloat t = some q →
      receive st ((chars "$GN " ++ t ++ chars "\n") :: rest)
        = { st with geo := { st.geo with latitude := q } } := by
  intro st rest t q hnd hq
  have hdec : chars "$GN " ++ t ++ chars "\n" = chars "$GN" ++ ' ' :: (t ++ '\n' :: []) := by
    simp [chars]
  have harr : reSplit (chars "$GN " ++ t ++ chars "\n") = [chars "$GN", t, []] := by
    rw [hdec, reSplit_field (chars "$GN") ' ' (t ++ '\n' :: []) (by decide) (by decide),
      reSplit_field t '\n' [] hnd (by decide)]
    rfl
  have htag : (chars "$GN " ++ t ++ chars "\n").take 3 = chars "$GN" := by
    rw [hdec]
    rfl
  have h1 : (chars "$GN " ++ t ++ chars "\n").take 3 ≠ chars "$RT" := by rw [htag]; decide
  have h2 : (chars "$GN " ++ t ++ chars "\n").take 3 ≠ chars "$MT" := by rw [htag]; decide
  have h3 : (chars "$GN " ++ t ++ chars "\n").take 3 ≠ chars "$MM" := by rw [htag]; decide
  simp only [receive, processLine]
  rw [if_neg h1, if_neg h2, if_neg h3, if_pos htag, harr]
  unfold gnUpdate
  have e1 : [chars "$GN", t, []][1]? = some t := rfl
  have e2 : [chars "$GN", t, []][2]? = some [] := rfl
  have hpf : parseFloat ([] : List Char) = none := by decide
  simp only [e1, e2, hq, hpf]

/-- Witness for gn_short_line_partial_update at the line `$GN 9.0` from the
fresh state. -/
theorem gn_short_line_partial_update_witness :
    receive initState ((chars "$GN " ++ chars "9.0" ++ chars "\n") :: [])
        = { initState with geo := { initState.geo with latitude := 9 } } :=
  gn_short_line_partial_update initState [] (chars "9.0") 9 (by decide) (by decide)
